import Mathlib

/-!
Shallow embedding of the transcription pipeline of `src/stt_bot.py`.

The two functions of interest are `transcribe_voice` (the recognizer stage)
and `handle_media` (the per-request orchestrator).  External collaborators
(Telegram sends/edits, the media download, the pydub conversion, the Google
speech provider) are modelled by an environment record `Env` saying, for each
fallible call the handler makes, whether that call succeeds; the provider's
answer is a `ProviderOutcome`.  A run produces a trace of observable events
(sends, edits, download, recognition call, file-removal attempts) together
with the final on-disk state of the two per-request artifacts and whether an
exception escaped the handler.
-/

namespace SttBot

/-- Python `str` of a decimal digit: the character of code point `48 + d`. -/
def digitChar (d : Nat) : Char := Char.ofNat (48 + d)

/-- Fuel-driven decimal rendering, most significant digit first; mirrors the
digits produced by Python `str(int)` for a non-negative integer.  The fuel is
only there to make the recursion structural; `fuel > n` is always enough. -/
def natCharsAux : Nat → Nat → List Char
  | 0, _ => []
  | fuel + 1, n =>
    if n < 10 then [digitChar n]
    else natCharsAux fuel (n / 10) ++ [digitChar (n % 10)]

/-- Python `str(n)` for a non-negative integer `n`, as used in the f-string
`f"voice_{user_id}_{int(time.time())}"`. -/
def natStr (n : Nat) : String := ⟨natCharsAux (n + 1) n⟩

/-- The two accepted media kinds (`update.message.voice` / `.video_note`). -/
inductive MediaKind
  | voice
  | videoNote
  deriving DecidableEq, Repr

/-- The f-string tag in front of the base name: `voice` or `vnote`. -/
def kindTag : MediaKind → String
  | MediaKind.voice => "voice"
  | MediaKind.videoNote => "vnote"

/-- `base_name = f"{tag}_{user_id}_{int(time.time())}"` from `handle_media`. -/
def base_name (k : MediaKind) (userId timestamp : Nat) : String :=
  kindTag k ++ "_" ++ natStr userId ++ "_" ++ natStr timestamp

/-- `os.path.join(TEMP_MEDIA_DIR, base_name + suffix)` with
`TEMP_MEDIA_DIR = "temp_media"`. -/
def artifactPath (base fileExt : String) : String :=
  "temp_media/" ++ base ++ fileExt

/-- The three artifact suffixes the handler uses: `.oga` for voice sources,
`.mp4` for video-note sources, `.wav` for the canonical artifact. -/
def fileExts : List String := [".oga", ".mp4", ".wav"]

/-- Source-artifact suffix chosen by media kind. -/
def srcExt : MediaKind → String
  | MediaKind.voice => ".oga"
  | MediaKind.videoNote => ".mp4"

/-- Outcome of the call `recognizer.recognize_google(audio_data, language="ru-RU")`:
a transcript string, `sr.UnknownValueError`, `sr.RequestError(detail)`, or any
other exception. -/
inductive ProviderOutcome
  | transcript (text : String)
  | unknownValue
  | requestError (detail : String)
  | unexpected (detail : String)
  deriving DecidableEq, Repr

/-- Which `edit_text` call site an edit event comes from. -/
inductive EditSite
  | converting
  | failure
  | recognizing
  | final
  deriving DecidableEq, Repr

/-- Observable actions of one request, in program order. -/
inductive Event
  | sendAck (ok : Bool)
  | makeDirs
  | sendChatAction (ok : Bool)
  | download (path : String) (ok : Bool)
  | convert (ok : Bool)
  | editStatus (site : EditSite) (text : String) (ok : Bool)
  | recognizeCall (path : String)
  | removeAttempt (path : String)
  deriving DecidableEq, Repr

/-- `"🎙️ Получил, начинаю расшифровку..."` (initial reply). -/
def ackText : String := "🎙️ Получил, начинаю расшифровку..."

/-- `"⏳ Конвертирую аудио..."` (line 133). -/
def convertingText : String := "⏳ Конвертирую аудио..."

/-- `"❌ Произошла ошибка при обработке файла."` (line 144). -/
def failureText : String := "❌ Произошла ошибка при обработке файла."

/-- `"🧠 Распознаю речь..."` (line 152). -/
def recognizingText : String := "🧠 Распознаю речь..."

/-- `"Не удалось получить результат распознавания."` (line 160). -/
def fallbackText : String := "Не удалось получить результат распознавания."

/-- `"[Речь не распознана]"`: the fixed no-speech marker. -/
def noSpeechText : String := "[Речь не распознана]"

/-- `f"[Ошибка сервиса распознавания: {e}]"`: the service-error marker. -/
def serviceErrorText (detail : String) : String :=
  "[Ошибка сервиса распознавания: " ++ detail ++ "]"

/-- `"[Ошибка обработки аудио]"`: the generic processing-error marker. -/
def processingErrorText : String := "[Ошибка обработки аудио]"

/-- `"[Ошибка: Внутренняя ошибка, файл не найден]"`: the missing-file marker. -/
def missingFileText : String := "[Ошибка: Внутренняя ошибка, файл не найден]"

/-- The string `transcribe_voice` ends up holding in `text` after the
`try`/`except` chain of lines 51-70, by provider outcome. -/
def providerText : ProviderOutcome → String
  | ProviderOutcome.transcript t => t
  | ProviderOutcome.unknownValue => noSpeechText
  | ProviderOutcome.requestError e => serviceErrorText e
  | ProviderOutcome.unexpected _ => processingErrorText

/-- `transcribe_voice(file_path)` from `src/stt_bot.py` lines 38-79.
`fileExists` is the value of `os.path.exists(file_path)` at entry, `prov`
the provider's behaviour on this call.  Returns the Python return value
(`Optional[str]`) and the trace of the recognition call and file-removal
attempts the function performs. -/
def transcribe_voice (file_path : String) (fileExists : Bool)
    (prov : ProviderOutcome) : Option String × List Event :=
  if !fileExists then
    (some missingFileText, [])
  else
    (some (providerText prov),
     [Event.recognizeCall file_path, Event.removeAttempt file_path])

/-- The fields of an inbound `Update` that `handle_media` consumes. -/
structure Message where
  hasMessage : Bool
  hasVoice : Bool
  hasVideoNote : Bool
  userId : Nat
  timestamp : Nat
  deriving DecidableEq, Repr

/-- Success/failure of each fallible collaborator call made by `handle_media`,
plus the provider's answer if the recognition call is reached. -/
structure Env where
  ackOk : Bool
  chatActionOk : Bool
  downloadOk : Bool
  convertingEditOk : Bool
  convertOk : Bool
  failureEditOk : Bool
  recognizingEditOk : Bool
  finalEditOk : Bool
  provider : ProviderOutcome
  deriving DecidableEq, Repr

/-- What one run of `handle_media` did: its event trace, whether the source
and wav artifacts still exist on storage afterwards, whether an exception
escaped the handler, and the recognizer result if that stage ran. -/
structure RunResult where
  events : List Event
  sourceExists : Bool
  wavExists : Bool
  raised : Bool
  result : Option (Option String)
  deriving DecidableEq, Repr

/-- The run that does nothing at all (ineligible update). -/
def RunResult.noop : RunResult :=
  { events := [], sourceExists := false, wavExists := false,
    raised := false, result := none }

/-- The `except Exception` + `finally` tail of the download/convert `try`
block (lines 142-149): edit the status to the generic failure text, then
remove the source file if it exists; an exception from the failure edit
escapes the handler after the `finally` runs.  The wav file has not been
created on any path that reaches this code. -/
def exceptCleanup (env : Env) (pre : List Event) (srcPath : String)
    (srcExists : Bool) : RunResult :=
  { events := pre ++ [Event.editStatus EditSite.failure failureText env.failureEditOk]
      ++ (if srcExists then [Event.removeAttempt srcPath] else []),
    sourceExists := false,
    wavExists := false,
    raised := !env.failureEditOk,
    result := none }

/-- `handle_media(update, context)` from `src/stt_bot.py` lines 85-160.
The `get_file` call is folded into the download step (both fail inside the
same `try` with the source file not yet on disk). -/
def handle_media (msg : Message) (env : Env) : RunResult :=
  if !msg.hasMessage then RunResult.noop
  else if !(msg.hasVoice || msg.hasVideoNote) then RunResult.noop
  else if !env.ackOk then
    { events := [Event.sendAck false], sourceExists := false, wavExists := false,
      raised := true, result := none }
  else
    let kind := if msg.hasVoice then MediaKind.voice else MediaKind.videoNote
    let base := base_name kind msg.userId msg.timestamp
    let srcPath := artifactPath base (srcExt kind)
    let wavPath := artifactPath base ".wav"
    let pre := [Event.sendAck true, Event.makeDirs,
                Event.sendChatAction env.chatActionOk]
    if !env.chatActionOk then exceptCleanup env pre srcPath false
    else
      let pre := pre ++ [Event.download srcPath env.downloadOk]
      if !env.downloadOk then exceptCleanup env pre srcPath false
      else
        let pre := pre ++ [Event.editStatus EditSite.converting convertingText
                             env.convertingEditOk]
        if !env.convertingEditOk then exceptCleanup env pre srcPath true
        else
          let pre := pre ++ [Event.convert env.convertOk]
          if !env.convertOk then exceptCleanup env pre srcPath true
          else
            let pre := pre ++ [Event.removeAttempt srcPath,
                               Event.editStatus EditSite.recognizing recognizingText
                                 env.recognizingEditOk]
            if !env.recognizingEditOk then
              { events := pre, sourceExists := false, wavExists := true,
                raised := true, result := none }
            else
              let tr := transcribe_voice wavPath true env.provider
              let finalText :=
                match tr.1 with
                | some t => if t = "" then fallbackText else "\n\n" ++ t
                | none => fallbackText
              { events := pre ++ tr.2
                  ++ [Event.editStatus EditSite.final finalText env.finalEditOk],
                sourceExists := false, wavExists := false,
                raised := !env.finalEditOk, result := some tr.1 }

/-- An edit event at one of the two terminal call sites (the failure edit of
line 144 and the final edit of lines 157/160). -/
def isTerminalEdit : Event → Bool
  | Event.editStatus EditSite.failure _ _ => true
  | Event.editStatus EditSite.final _ _ => true
  | _ => false

/-- Number of terminal status-edit attempts in a trace. -/
def terminalEditCount (evs : List Event) : Nat :=
  (evs.filter isTerminalEdit).length

/-- The texts of the final-site edits of a trace (line 157/160). -/
def finalEditTexts (evs : List Event) : List String :=
  evs.filterMap fun e =>
    match e with
    | Event.editStatus EditSite.final t _ => some t
    | _ => none

/-- A download attempt event. -/
def isDownload : Event → Bool
  | Event.download _ _ => true
  | _ => false

/-- A recognition-call event. -/
def isRecognizeCall : Event → Bool
  | Event.recognizeCall _ => true
  | _ => false

/-- An environment in which every collaborator call succeeds. -/
def allOkEnv (p : ProviderOutcome) : Env :=
  { ackOk := true, chatActionOk := true, downloadOk := true,
    convertingEditOk := true, convertOk := true, failureEditOk := true,
    recognizingEditOk := true, finalEditOk := true, provider := p }

/-- Everything succeeds except the "recognizing" status edit of line 152. -/
def recEditFailsEnv (p : ProviderOutcome) : Env :=
  { allOkEnv p with recognizingEditOk := false }

/-- Everything succeeds except the "converting" status edit of line 133. -/
def cvEditFailsEnv (p : ProviderOutcome) : Env :=
  { allOkEnv p with convertingEditOk := false }

/-- A concrete accepted voice message. -/
def sampleMsg : Message :=
  { hasMessage := true, hasVoice := true, hasVideoNote := false,
    userId := 7, timestamp := 1700000000 }

/-! ## Lemmas about the decimal rendering used in storage keys -/

theorem digitChar_inj (d e : Nat) (hd : d < 10) (he : e < 10)
    (h : digitChar d = digitChar e) : d = e := by
  interval_cases d <;> interval_cases e <;>
    first | rfl | (exfalso; exact absurd h (by decide))

theorem digitChar_ne_underscore (d : Nat) (hd : d < 10) : digitChar d ≠ '_' := by
  interval_cases d <;> decide

theorem digitChar_ne_dot (d : Nat) (hd : d < 10) : digitChar d ≠ '.' := by
  interval_cases d <;> decide

theorem natCharsAux_ne_nil (fuel n : Nat) (h : n < fuel) :
    natCharsAux fuel n ≠ [] := by
  cases fuel with
  | zero => omega
  | succ f =>
    simp only [natCharsAux]
    split <;> simp

theorem natCharsAux_mem (fuel : Nat) : ∀ n c, n < fuel → c ∈ natCharsAux fuel n →
    ∃ d, d < 10 ∧ c = digitChar d := by
  induction fuel with
  | zero => intro n c h; omega
  | succ f ih =>
    intro n c hn hc
    simp only [natCharsAux] at hc
    by_cases h10 : n < 10
    · rw [if_pos h10] at hc
      simp at hc
      exact ⟨n, h10, hc⟩
    · rw [if_neg h10] at hc
      rcases List.mem_append.mp hc with h1 | h2
      · have hdiv : n / 10 < n := Nat.div_lt_self (by omega) (by omega)
        exact ih (n / 10) c (by omega) h1
      · simp at h2
        exact ⟨n % 10, Nat.mod_lt _ (by omega), h2⟩

theorem natCharsAux_inj (f1 : Nat) : ∀ n f2 m, n < f1 → m < f2 →
    natCharsAux f1 n = natCharsAux f2 m → n = m := by
  induction f1 with
  | zero => intro n f2 m h; omega
  | succ f ih =>
    intro n f2 m hn hm heq
    cases f2 with
    | zero => omega
    | succ g =>
      simp only [natCharsAux] at heq
      by_cases h1 : n < 10 <;> by_cases h2 : m < 10
      · rw [if_pos h1, if_pos h2] at heq
        simp at heq
        exact digitChar_inj n m h1 h2 heq
      · rw [if_pos h1, if_neg h2] at heq
        have hgnil : natCharsAux g (m / 10) ≠ [] := by
          have hdiv : m / 10 < m := Nat.div_lt_self (by omega) (by omega)
          exact natCharsAux_ne_nil g (m / 10) (by omega)
        have hlen := congrArg List.length heq
        rw [List.length_append] at hlen
        simp only [List.length_singleton] at hlen
        have hpos := List.length_pos.mpr hgnil
        omega
      · rw [if_neg h1, if_pos h2] at heq
        have hfnil : natCharsAux f (n / 10) ≠ [] := by
          have hdiv : n / 10 < n := Nat.div_lt_self (by omega) (by omega)
          exact natCharsAux_ne_nil f (n / 10) (by omega)
        have hlen := congrArg List.length heq
        rw [List.length_append] at hlen
        simp only [List.length_singleton] at hlen
        have hpos := List.length_pos.mpr hfnil
        omega
      · rw [if_neg h1, if_neg h2] at heq
        have hlast : ([digitChar (n % 10)] : List Char).length
            = ([digitChar (m % 10)] : List Char).length := rfl
        obtain ⟨hinit, htail⟩ := List.append_inj' heq hlast
        have hmod : n % 10 = m % 10 := by
          have h' : digitChar (n % 10) = digitChar (m % 10) := by simpa using htail
          exact digitChar_inj _ _ (Nat.mod_lt _ (by omega)) (Nat.mod_lt _ (by omega)) h'
        have hdivn : n / 10 < n := Nat.div_lt_self (by omega) (by omega)
        have hdivm : m / 10 < m := Nat.div_lt_self (by omega) (by omega)
        have hdiv : n / 10 = m / 10 := ih (n / 10) g (m / 10) (by omega) (by omega) hinit
        omega

theorem natStr_underscore_notMem (n : Nat) : '_' ∉ (natStr n).data := by
  intro hm
  obtain ⟨d, hd10, hd⟩ := natCharsAux_mem (n + 1) n '_' (Nat.lt_succ_self n) hm
  exact digitChar_ne_underscore d hd10 hd.symm

theorem natStr_dot_notMem (n : Nat) : '.' ∉ (natStr n).data := by
  intro hm
  obtain ⟨d, hd10, hd⟩ := natCharsAux_mem (n + 1) n '.' (Nat.lt_succ_self n) hm
  exact digitChar_ne_dot d hd10 hd.symm

/-! ## Splitting a char list at a separator that occurs in neither half -/

theorem append_cons_inj (c : Char) : ∀ (a1 a2 r1 r2 : List Char),
    c ∉ a1 → c ∉ a2 → a1 ++ c :: r1 = a2 ++ c :: r2 → a1 = a2 ∧ r1 = r2 := by
  intro a1
  induction a1 with
  | nil =>
    intro a2 r1 r2 h1 h2 heq
    cases a2 with
    | nil =>
      simp at heq
      exact ⟨rfl, heq⟩
    | cons y ys =>
      simp at heq
      exact absurd (heq.1 ▸ List.mem_cons_self y ys) h2
  | cons x xs ih =>
    intro a2 r1 r2 h1 h2 heq
    cases a2 with
    | nil =>
      simp at heq
      exact absurd (heq.1 ▸ List.mem_cons_self x xs) h1
    | cons y ys =>
      simp at heq
      obtain ⟨hxy, hrest⟩ := heq
      have h1' : c ∉ xs := fun hm => h1 (List.mem_cons_of_mem _ hm)
      have h2' : c ∉ ys := fun hm => h2 (List.mem_cons_of_mem _ hm)
      obtain ⟨ha, hr⟩ := ih ys r1 r2 h1' h2' hrest
      exact ⟨by rw [hxy, ha], hr⟩

/-! ## The storage-key shape -/

theorem base_name_data (k : MediaKind) (u t : Nat) :
    (base_name k u t).data
      = (kindTag k).data
          ++ '_' :: (natCharsAux (u + 1) u ++ '_' :: natCharsAux (t + 1) t) := by
  show ((kindTag k ++ "_" ++ natStr u ++ "_" ++ natStr t).data = _)
  rw [String.data_append, String.data_append, String.data_append, String.data_append]
  simp [natStr, List.append_assoc]

theorem kindTag_underscore_notMem (k : MediaKind) : '_' ∉ (kindTag k).data := by
  cases k <;> decide

theorem base_name_inj (k1 k2 : MediaKind) (u1 u2 t1 t2 : Nat)
    (h : base_name k1 u1 t1 = base_name k2 u2 t2) : u1 = u2 := by
  have hd := congrArg String.data h
  rw [base_name_data, base_name_data] at hd
  have htag := append_cons_inj '_' (kindTag k1).data (kindTag k2).data _ _
    (kindTag_underscore_notMem k1) (kindTag_underscore_notMem k2) hd
  have hu := append_cons_inj '_' (natCharsAux (u1 + 1) u1) (natCharsAux (u2 + 1) u2) _ _
    (natStr_underscore_notMem u1) (natStr_underscore_notMem u2) htag.2
  exact natCharsAux_inj (u1 + 1) u1 (u2 + 1) u2 (Nat.lt_succ_self u1)
    (Nat.lt_succ_self u2) hu.1

theorem base_name_dot_notMem (k : MediaKind) (u t : Nat) :
    '.' ∉ (base_name k u t).data := by
  rw [base_name_data]
  intro hm
  rcases List.mem_append.mp hm with htag | hrest
  · revert htag; cases k <;> decide
  · rcases List.mem_cons.mp hrest with hus | hrest2
    · exact absurd hus (by decide)
    · rcases List.mem_append.mp hrest2 with hdu | hrest3
      · exact natStr_dot_notMem u hdu
      · rcases List.mem_cons.mp hrest3 with hus2 | hdt
        · exact absurd hus2 (by decide)
        · exact natStr_dot_notMem t hdt

theorem fileExt_data (e : String) (he : e ∈ fileExts) :
    ∃ r, e.data = '.' :: r ∧ '.' ∉ r := by
  simp only [fileExts, List.mem_cons, List.not_mem_nil, or_false] at he
  rcases he with h | h | h
  · exact ⟨['o', 'g', 'a'], by rw [h]; exact ⟨rfl, by decide⟩⟩
  · exact ⟨['m', 'p', '4'], by rw [h]; exact ⟨rfl, by decide⟩⟩
  · exact ⟨['w', 'a', 'v'], by rw [h]; exact ⟨rfl, by decide⟩⟩

theorem artifactPath_data (b e : String) :
    (artifactPath b e).data = ("temp_media/" : String).data ++ (b.data ++ e.data) := by
  show ((("temp_media/" : String) ++ b ++ e).data = _)
  rw [String.data_append, String.data_append, List.append_assoc]

/-! ## Helper facts about the two pipeline stages -/

theorem serviceErrorText_ne_empty (d : String) : serviceErrorText d ≠ "" := by
  intro h
  have hd := congrArg String.data h
  rw [show serviceErrorText d
        = "[Ошибка сервиса распознавания: " ++ d ++ "]" from rfl,
      String.data_append] at hd
  have h2 := List.append_eq_nil.mp hd
  exact absurd h2.2 (by decide)

theorem handle_media_sourceExists (msg : Message) (env : Env) :
    (handle_media msg env).sourceExists = false := by
  rcases msg with ⟨hm, vo, vn, u, ts⟩
  rcases env with ⟨ack, act, dl, cve, cv, fe, re, fi, prov⟩
  cases hm <;> cases vo <;> cases vn <;> cases ack <;> cases act <;> cases dl <;>
    cases cve <;> cases cv <;> cases re <;> rfl

theorem handle_media_wavExists (msg : Message) (env : Env)
    (hre : env.recognizingEditOk = true) :
    (handle_media msg env).wavExists = false := by
  rcases msg with ⟨hm, vo, vn, u, ts⟩
  rcases env with ⟨ack, act, dl, cve, cv, fe, re, fi, prov⟩
  subst hre
  cases hm <;> cases vo <;> cases vn <;> cases ack <;> cases act <;> cases dl <;>
    cases cve <;> cases cv <;> rfl

/-! ## The claims -/

/-- C1 (amended): for every accepted request, the source artifact never remains
on storage after the handler terminates, on any path; and the canonical wav
artifact never remains provided the "recognizing" status edit of line 152 does
not fault.  (The claim as stated fails: when that edit faults, the handler
aborts before `transcribe_voice` runs and the wav file is leaked — see the
counterexample.) -/
theorem C1_artifact_cleanup (msg : Message) (env : Env)
    (_hmsg : msg.hasMessage = true)
    (_hkind : msg.hasVoice = true ∨ msg.hasVideoNote = true) :
    (handle_media msg env).sourceExists = false ∧
    (env.recognizingEditOk = true → (handle_media msg env).wavExists = false) :=
  ⟨handle_media_sourceExists msg env, fun hre => handle_media_wavExists msg env hre⟩

/-- Witness for C1: concrete accepted request, all collaborators succeed. -/
theorem C1_artifact_cleanup_witness :
    (handle_media sampleMsg (allOkEnv (ProviderOutcome.transcript "привет"))).sourceExists
        = false ∧
    ((allOkEnv (ProviderOutcome.transcript "привет")).recognizingEditOk = true →
      (handle_media sampleMsg (allOkEnv (ProviderOutcome.transcript "привет"))).wavExists
        = false) :=
  C1_artifact_cleanup sampleMsg (allOkEnv (ProviderOutcome.transcript "привет"))
    rfl (Or.inl rfl)

/-- C1 counterexample: on an accepted voice request where only the
"recognizing" status edit faults, the converted wav file remains on storage
after the handler terminates. -/
theorem C1_counterexample :
    sampleMsg.hasMessage = true ∧ sampleMsg.hasVoice = true ∧
    (handle_media sampleMsg (recEditFailsEnv (ProviderOutcome.transcript "привет"))).wavExists
      = true :=
  ⟨rfl, rfl, rfl⟩

/-- C2: the recognizer stage maps provider outcomes one-to-one to result
strings: an "could not understand audio" response yields the fixed no-speech
marker, a transport/service failure yields the service-error marker carrying
the failure detail, and any other exception yields the fixed generic
processing-error marker. -/
theorem C2_recognizer_mapping (path detail : String) :
    (transcribe_voice path true ProviderOutcome.unknownValue).1 = some noSpeechText ∧
    (transcribe_voice path true (ProviderOutcome.requestError detail)).1
      = some ("[Ошибка сервиса распознавания: " ++ detail ++ "]") ∧
    (transcribe_voice path true (ProviderOutcome.unexpected detail)).1
      = some processingErrorText :=
  ⟨rfl, rfl, rfl⟩

/-- C3 (amended): after the initial acknowledgment, every control-flow path
performs at most one terminal status edit, and exactly one provided the
"recognizing" status edit of line 152 does not fault.  (The claim as stated
fails: when that edit faults the handler exits with zero terminal edits — see
the counterexample.) -/
theorem C3_terminal_reports (msg : Message) (env : Env) :
    terminalEditCount (handle_media msg env).events ≤ 1 ∧
    (msg.hasMessage = true → (msg.hasVoice = true ∨ msg.hasVideoNote = true) →
      env.ackOk = true → env.recognizingEditOk = true →
      terminalEditCount (handle_media msg env).events = 1) := by
  rcases msg with ⟨hm, vo, vn, u, ts⟩
  rcases env with ⟨ack, act, dl, cve, cv, fe, re, fi, prov⟩
  cases hm <;> cases vo <;> cases vn <;> cases ack <;> cases act <;> cases dl <;>
    cases cve <;> cases cv <;> cases re <;>
      simp [handle_media, exceptCleanup, transcribe_voice, terminalEditCount,
        isTerminalEdit, RunResult.noop]

/-- Witness for C3: concrete accepted request, all collaborators succeed. -/
theorem C3_terminal_reports_witness :
    terminalEditCount
        (handle_media sampleMsg (allOkEnv ProviderOutcome.unknownValue)).events ≤ 1 ∧
    terminalEditCount
        (handle_media sampleMsg (allOkEnv ProviderOutcome.unknownValue)).events = 1 :=
  ⟨(C3_terminal_reports sampleMsg (allOkEnv ProviderOutcome.unknownValue)).1,
   (C3_terminal_reports sampleMsg (allOkEnv ProviderOutcome.unknownValue)).2
     rfl (Or.inl rfl) rfl rfl⟩

/-- C3 counterexample: on an accepted voice request with the acknowledgment
sent, where only the "recognizing" status edit faults, zero terminal status
edits are performed. -/
theorem C3_counterexample :
    sampleMsg.hasMessage = true ∧ sampleMsg.hasVoice = true ∧
    (recEditFailsEnv ProviderOutcome.unknownValue).ackOk = true ∧
    terminalEditCount
      (handle_media sampleMsg (recEditFailsEnv ProviderOutcome.unknownValue)).events
      = 0 := by
  decide

/-- C4 (amended): when the stages succeed and the provider returns a
non-empty transcript `t`, the single final status edit carries the text
`"\n\n" ++ t` — two newline characters prepended to the transcript.  (The
claim as stated — the transcript verbatim — fails; see the counterexample.) -/
theorem C4_final_text (msg : Message) (env : Env) (t : String)
    (hmsg : msg.hasMessage = true)
    (hkind : msg.hasVoice = true ∨ msg.hasVideoNote = true)
    (hok : env.ackOk = true ∧ env.chatActionOk = true ∧ env.downloadOk = true
      ∧ env.convertingEditOk = true ∧ env.convertOk = true
      ∧ env.recognizingEditOk = true)
    (hp : env.provider = ProviderOutcome.transcript t) (ht : t ≠ "") :
    finalEditTexts (handle_media msg env).events = ["\n\n" ++ t] := by
  rcases msg with ⟨hm, vo, vn, u, ts⟩
  rcases env with ⟨ack, act, dl, cve, cv, fe, re, fi, prov⟩
  obtain ⟨h1, h2, h3, h4, h5, h6⟩ := hok
  subst hmsg h1 h2 h3 h4 h5 h6 hp
  rcases hkind with hv | hv
  · subst hv
    simp [handle_media, transcribe_voice, providerText, finalEditTexts, ht]
  · subst hv
    cases vo <;>
      simp [handle_media, transcribe_voice, providerText, finalEditTexts, ht]

/-- Witness for C4 (amended) at the transcript of the spec's test property. -/
theorem C4_final_text_witness :
    finalEditTexts
        (handle_media sampleMsg (allOkEnv (ProviderOutcome.transcript "hello world"))).events
      = ["\n\n" ++ "hello world"] :=
  C4_final_text sampleMsg (allOkEnv (ProviderOutcome.transcript "hello world"))
    "hello world" rfl (Or.inl rfl) ⟨rfl, rfl, rfl, rfl, rfl, rfl⟩ rfl (by decide)

/-- C4 counterexample: with a provider stub returning "hello world", the final
status message text is "\n\nhello world", which is not the transcript
verbatim. -/
theorem C4_counterexample :
    finalEditTexts
        (handle_media sampleMsg (allOkEnv (ProviderOutcome.transcript "hello world"))).events
      = ["\n\nhello world"] ∧ ("\n\nhello world" : String) ≠ "hello world" := by
  exact ⟨by decide, by decide⟩

set_option maxHeartbeats 1600000 in
/-- C5 (amended): only a fault of the "converting" status edit (line 133,
inside the try block) is caught and swallowed by the handler (diverted into
the generic failure report); a fault of the acknowledgment reply (line 103),
of the failure edit (line 144) on any path that reaches the except block, of
the "recognizing" edit (line 152) — which also aborts the remaining stages,
so the recognition call never happens — or of the final edit (lines 157/160)
propagates out of the handler; and no path ever retries the download.  (The
claim as stated — no status-send/edit fault ever propagates — fails; see the
counterexample.) -/
theorem C5_report_faults (msg : Message) (env : Env) :
    (env.ackOk = true → env.chatActionOk = true → env.downloadOk = true →
      env.convertingEditOk = false → env.failureEditOk = true →
      (handle_media msg env).raised = false) ∧
    (msg.hasMessage = true → (msg.hasVoice = true ∨ msg.hasVideoNote = true) →
      env.ackOk = false → (handle_media msg env).raised = true) ∧
    (msg.hasMessage = true → (msg.hasVoice = true ∨ msg.hasVideoNote = true) →
      env.ackOk = true →
      (env.chatActionOk = false ∨ env.downloadOk = false ∨
        env.convertingEditOk = false ∨ env.convertOk = false) →
      env.failureEditOk = false → (handle_media msg env).raised = true) ∧
    (msg.hasMessage = true → (msg.hasVoice = true ∨ msg.hasVideoNote = true) →
      env.ackOk = true → env.chatActionOk = true → env.downloadOk = true →
      env.convertingEditOk = true → env.convertOk = true →
      env.recognizingEditOk = false →
      (handle_media msg env).raised = true ∧
        (handle_media msg env).events.filter isRecognizeCall = []) ∧
    (msg.hasMessage = true → (msg.hasVoice = true ∨ msg.hasVideoNote = true) →
      env.ackOk = true → env.chatActionOk = true → env.downloadOk = true →
      env.convertingEditOk = true → env.convertOk = true →
      env.recognizingEditOk = true → env.finalEditOk = false →
      (handle_media msg env).raised = true) ∧
    ((handle_media msg env).events.filter isDownload).length ≤ 1 := by
  rcases msg with ⟨hm, vo, vn, u, ts⟩
  rcases env with ⟨ack, act, dl, cve, cv, fe, re, fi, prov⟩
  cases hm <;> cases vo <;> cases vn <;> cases ack <;> cases act <;> cases dl <;>
    cases cve <;> cases cv <;> cases re <;>
      simp [handle_media, exceptCleanup, transcribe_voice, isRecognizeCall,
        isDownload, RunResult.noop]

/-- Witness for C5 (amended): the converting-edit fault is swallowed; faults
of the acknowledgment reply, of the failure edit (on a download-fault path),
of the recognizing edit (which also skips the recognition call) and of the
final edit all propagate; one download attempt at most. -/
theorem C5_report_faults_witness :
    (handle_media sampleMsg (cvEditFailsEnv ProviderOutcome.unknownValue)).raised = false ∧
    (handle_media sampleMsg
        { allOkEnv ProviderOutcome.unknownValue with ackOk := false }).raised = true ∧
    (handle_media sampleMsg
        { allOkEnv ProviderOutcome.unknownValue with
            downloadOk := false, failureEditOk := false }).raised = true ∧
    ((handle_media sampleMsg (recEditFailsEnv ProviderOutcome.unknownValue)).raised = true ∧
      (handle_media sampleMsg (recEditFailsEnv ProviderOutcome.unknownValue)).events.filter
          isRecognizeCall = []) ∧
    (handle_media sampleMsg
        { allOkEnv ProviderOutcome.unknownValue with finalEditOk := false }).raised = true ∧
    ((handle_media sampleMsg (allOkEnv ProviderOutcome.unknownValue)).events.filter
        isDownload).length ≤ 1 :=
  ⟨(C5_report_faults sampleMsg (cvEditFailsEnv ProviderOutcome.unknownValue)).1
      rfl rfl rfl rfl rfl,
   (C5_report_faults sampleMsg
      { allOkEnv ProviderOutcome.unknownValue with ackOk := false }).2.1
      rfl (Or.inl rfl) rfl,
   (C5_report_faults sampleMsg
      { allOkEnv ProviderOutcome.unknownValue with
          downloadOk := false, failureEditOk := false }).2.2.1
      rfl (Or.inl rfl) rfl (Or.inr (Or.inl rfl)) rfl,
   (C5_report_faults sampleMsg (recEditFailsEnv ProviderOutcome.unknownValue)).2.2.2.1
      rfl (Or.inl rfl) rfl rfl rfl rfl rfl rfl,
   (C5_report_faults sampleMsg
      { allOkEnv ProviderOutcome.unknownValue with finalEditOk := false }).2.2.2.2.1
      rfl (Or.inl rfl) rfl rfl rfl rfl rfl rfl rfl,
   (C5_report_faults sampleMsg (allOkEnv ProviderOutcome.unknownValue)).2.2.2.2.2⟩

/-- C5 counterexample: an environment in which the only failing operation is
the "recognizing" status edit, yet the handler run ends with an exception
escaping it. -/
theorem C5_counterexample :
    (recEditFailsEnv ProviderOutcome.unknownValue).recognizingEditOk = false ∧
    (handle_media sampleMsg (recEditFailsEnv ProviderOutcome.unknownValue)).raised
      = true := by
  decide

/-- C6 (amended): on every branch on which the wav artifact exists at entry —
successful transcript, no-speech, provider transport failure, unexpected
fault — `transcribe_voice` attempts the deletion of the wav file exactly
once, after the recognition call and before returning.  (The claim as stated
also requires a deletion attempt on the missing-at-entry branch, which the
early return of line 45 skips — see the counterexample.) -/
theorem C6_wav_removal (path : String) (prov : ProviderOutcome) :
    (transcribe_voice path true prov).2
      = [Event.recognizeCall path, Event.removeAttempt path] := by
  cases prov <;> rfl

/-- C6 counterexample: when the wav file is missing at entry, the stage
performs no events at all — in particular no deletion attempt. -/
theorem C6_counterexample :
    (transcribe_voice "temp_media/voice_7_1.wav" false ProviderOutcome.unknownValue).2
      = [] ∧
    Event.removeAttempt "temp_media/voice_7_1.wav"
      ∉ (transcribe_voice "temp_media/voice_7_1.wav" false
          ProviderOutcome.unknownValue).2 :=
  ⟨rfl, by decide⟩

/-- C7: when the wav artifact does not exist at entry, `transcribe_voice`
returns the fixed internal-error marker and performs no events — in
particular it never attempts the remote recognition call. -/
theorem C7_missing_artifact (path : String) (prov : ProviderOutcome) :
    (transcribe_voice path false prov).1 = some missingFileText ∧
    (transcribe_voice path false prov).2 = [] :=
  ⟨rfl, rfl⟩

/-- C8: an update with no message, or whose message carries neither a voice
nor a video-note payload, makes the handler return with no side effects at
all: empty event trace (no download, no status sends or edits), no artifact
on storage, no exception, no recognizer result. -/
theorem C8_no_side_effects (msg : Message) (env : Env)
    (h : msg.hasMessage = false ∨ (msg.hasVoice = false ∧ msg.hasVideoNote = false)) :
    handle_media msg env = RunResult.noop := by
  rcases msg with ⟨hm, vo, vn, u, ts⟩
  rcases h with h | ⟨h1, h2⟩
  · subst h
    rfl
  · subst h1
    subst h2
    cases hm <;> rfl

/-- Witness for C8: a concrete text-only message is a strict no-op. -/
theorem C8_no_side_effects_witness :
    handle_media
        { hasMessage := true, hasVoice := false, hasVideoNote := false,
          userId := 7, timestamp := 5 }
        (allOkEnv ProviderOutcome.unknownValue)
      = RunResult.noop :=
  C8_no_side_effects
    { hasMessage := true, hasVoice := false, hasVideoNote := false,
      userId := 7, timestamp := 5 }
    (allOkEnv ProviderOutcome.unknownValue) (Or.inr ⟨rfl, rfl⟩)

/-- C9: requests from distinct requester ids never collide on artifact
storage keys: the base name (media-kind tag + requester id + timestamp) is
injective across distinct requester ids, and so are the full artifact paths
for any of the three suffixes, whatever the timestamps. -/
theorem C9_keys_distinct (k1 k2 : MediaKind) (u1 u2 t1 t2 : Nat) (e1 e2 : String)
    (hu : u1 ≠ u2) (he1 : e1 ∈ fileExts) (he2 : e2 ∈ fileExts) :
    base_name k1 u1 t1 ≠ base_name k2 u2 t2 ∧
    artifactPath (base_name k1 u1 t1) e1 ≠ artifactPath (base_name k2 u2 t2) e2 := by
  have hbase : base_name k1 u1 t1 ≠ base_name k2 u2 t2 := fun h =>
    hu (base_name_inj k1 k2 u1 u2 t1 t2 h)
  refine ⟨hbase, fun h => ?_⟩
  obtain ⟨r1, hr1, _⟩ := fileExt_data e1 he1
  obtain ⟨r2, hr2, _⟩ := fileExt_data e2 he2
  have hd := congrArg String.data h
  rw [artifactPath_data, artifactPath_data, hr1, hr2] at hd
  have hd2 := List.append_cancel_left hd
  have hsplit := append_cons_inj '.' (base_name k1 u1 t1).data
    (base_name k2 u2 t2).data r1 r2 (base_name_dot_notMem k1 u1 t1)
    (base_name_dot_notMem k2 u2 t2) hd2
  exact hbase (String.ext_iff.mpr hsplit.1)

/-- Witness for C9, at the near-collision pair (uid 12, ts 3) vs (uid 1, ts 23). -/
theorem C9_keys_distinct_witness :
    base_name MediaKind.voice 12 3 ≠ base_name MediaKind.voice 1 23 ∧
    artifactPath (base_name MediaKind.voice 12 3) ".oga"
      ≠ artifactPath (base_name MediaKind.voice 1 23) ".oga" :=
  C9_keys_distinct MediaKind.voice MediaKind.voice 12 1 3 23 ".oga" ".oga"
    (by decide) (by decide) (by decide)

/-- C10 (amended): `transcribe_voice` never returns `None` — every branch
returns some string — and the returned string is empty only on the success
branch with an empty provider transcript; hence the handler's fallback branch
is reachable exactly for a provider stub returning the empty transcript.
(The claim as stated — every path returns a non-empty string, the fallback
unreachable — fails; see the counterexample.) -/
theorem C10_never_none (path : String) (ex : Bool) (prov : ProviderOutcome) :
    ((transcribe_voice path ex prov).1).isSome = true ∧
    ((transcribe_voice path ex prov).1 = some "" →
      ex = true ∧ prov = ProviderOutcome.transcript "") := by
  cases ex with
  | false =>
    exact ⟨rfl, fun h =>
      absurd (Option.some.inj h) (show missingFileText ≠ "" by decide)⟩
  | true =>
    cases prov with
    | transcript t =>
      refine ⟨rfl, fun h => ?_⟩
      have h' : t = "" := Option.some.inj h
      exact ⟨rfl, by rw [h']⟩
    | unknownValue =>
      exact ⟨rfl, fun h =>
        absurd (Option.some.inj h) (show noSpeechText ≠ "" by decide)⟩
    | requestError d =>
      exact ⟨rfl, fun h => absurd (Option.some.inj h) (serviceErrorText_ne_empty d)⟩
    | unexpected d =>
      exact ⟨rfl, fun h =>
        absurd (Option.some.inj h) (show processingErrorText ≠ "" by decide)⟩

/-- Witness for C10 (amended): non-empty transcript case and the discharged
empty-transcript implication. -/
theorem C10_never_none_witness :
    ((transcribe_voice "a.wav" true (ProviderOutcome.transcript "привет")).1).isSome
        = true ∧
    (true = true ∧ ProviderOutcome.transcript "" = ProviderOutcome.transcript "") :=
  ⟨(C10_never_none "a.wav" true (ProviderOutcome.transcript "привет")).1,
   (C10_never_none "b.wav" true (ProviderOutcome.transcript "")).2 rfl⟩

/-- C10 counterexample: with a provider stub returning the empty transcript,
the stage returns `some ""` — an empty string — and the handler's fallback
branch is reached: the final edit carries the fallback text. -/
theorem C10_counterexample :
    (transcribe_voice "temp_media/voice_7_1700000000.wav" true
        (ProviderOutcome.transcript "")).1 = some "" ∧
    finalEditTexts
        (handle_media sampleMsg (allOkEnv (ProviderOutcome.transcript ""))).events
      = [fallbackText] :=
  ⟨rfl, by decide⟩

end SttBot
